import Mathlib

/-!
Shallow embedding of the Vantage micro-safety layer (src/Vantage.py).

The detection-to-alert pipeline is embedded over exact rationals:
confidences, timestamps and pixel ratios are modelled as rationals, the
hazard dictionary as a lookup function on integers, the arbitrator as an
explicit state record threaded through the per-frame processing loop, and
the Python ZeroDivisionError raised by a zero frame width as an Option
failure.
-/

namespace Vantage

/-- Configuration constant CONFIDENCE_THRESHOLD = 0.55 (src/Vantage.py line 25). -/
def CONFIDENCE_THRESHOLD : ℚ := 55 / 100

/-- Configuration constant AUDIO_COOLDOWN = 2.0 seconds (src/Vantage.py line 26). -/
def AUDIO_COOLDOWN : ℚ := 2

/-- The HAZARD_MAP dictionary (src/Vantage.py lines 32-41): a Python dict
lookup from a class id to the hazard label, returning none on a missing key. -/
def HAZARD_MAP (cls_id : ℤ) : Option String :=
  if cls_id = 0 then some "Pedestrian (Dynamic)"
  else if cls_id = 1 then some "Cyclist (Dynamic)"
  else if cls_id = 2 then some "Car (Dynamic)"
  else if cls_id = 3 then some "Bike (Dynamic)"
  else if cls_id = 5 then some "Bus (Dynamic)"
  else if cls_id = 7 then some "Truck (Dynamic)"
  else if cls_id = 13 then some "Verticality (Bench/Step)"
  else if cls_id = 56 then some "Obstacle (Chair)"
  else none

/-- The eight class ids the HAZARD_MAP dictionary carries. -/
def HAZARD_KEYS : List ℤ := [0, 1, 2, 3, 5, 7, 13, 56]

/-- The hazard filter of the run loop (src/Vantage.py lines 107-109): the
detection passes when its confidence strictly exceeds the threshold and its
class id is a key of HAZARD_MAP; the label is then read off the map. -/
def classify (cls_id : ℤ) (conf : ℚ) (threshold : ℚ) : Option String :=
  if conf > threshold then HAZARD_MAP cls_id else none

/-- Confidence rounding of the run loop (src/Vantage.py line 101):
math.ceil of one hundred times the raw confidence, divided by one hundred. -/
def ceilConf (c : ℚ) : ℚ := ((Int.ceil (c * 100) : ℤ) : ℚ) / 100

/-- estimate_distance (src/Vantage.py lines 72-82).  The Python body divides
box_width by frame_width; a zero frame width raises ZeroDivisionError, which
is modelled as none.  Otherwise the meters value 0.5, 1.5 or 3.0 is returned
according to the perceived-width thresholds 0.8 and 0.4. -/
def estimate_distance (box_width frame_width : ℚ) : Option ℚ :=
  if frame_width = 0 then none
  else
    let perceived_width := box_width / frame_width
    if perceived_width > 8 / 10 then some (1 / 2)
    else if perceived_width > 4 / 10 then some (3 / 2)
    else some 3

/-- The distance bands of the specification, in increasing distance order. -/
inductive DistanceBand where
  | VeryClose
  | Close
  | Safe
deriving DecidableEq

/-- Each band is named by its canonical representative meters value, the
value estimate_distance returns (0.5, 1.5, 3.0). -/
def DistanceBand.ofMeters (d : ℚ) : DistanceBand :=
  if d = 1 / 2 then .VeryClose else if d = 3 / 2 then .Close else .Safe

/-- Rank of a band under the closeness order VeryClose < Close < Safe. -/
def DistanceBand.closenessRank : DistanceBand → ℕ
  | .VeryClose => 0
  | .Close => 1
  | .Safe => 2

/-- estimate_distance read back as a band via the representative meters. -/
def estimate_band (box_width frame_width : ℚ) : Option DistanceBand :=
  (estimate_distance box_width frame_width).map DistanceBand.ofMeters

/-- The arbitrator state: the last_audio_time field of VantageSystem
(src/Vantage.py line 56), the only mutable state of the pipeline. -/
structure VantageState where
  last_audio_time : ℚ
deriving DecidableEq

/-- The state set up by VantageSystem init: last_audio_time = 0. -/
def initState : VantageState := ⟨0⟩

/-- trigger_bone_conduction (src/Vantage.py lines 60-70): when strictly more
than AUDIO_COOLDOWN has passed since last_audio_time, the audio message is
emitted (modelled as some message) and last_audio_time is set to the current
time; otherwise nothing is emitted and the state is left untouched. -/
def trigger_bone_conduction (message : String) (now : ℚ) (s : VantageState) :
    Option String × VantageState :=
  if now - s.last_audio_time > AUDIO_COOLDOWN then (some message, ⟨now⟩)
  else (none, s)

/-- The audio-trigger guard of the run loop (src/Vantage.py line 132): the
arbitrator is invoked exactly when the estimated distance is below 2.0. -/
def code_alert_eligible (distance : ℚ) : Bool := decide (distance < 2)

/-- Modelled from the spec: alert eligibility stated on bands — a hazard is
alert-eligible only when its DistanceBand is VeryClose or Close; Safe-band
hazards never trigger arbitration. -/
def spec_alert_eligible : DistanceBand → Bool
  | .VeryClose => true
  | .Close => true
  | .Safe => false

/-- One raw detection as the run loop reads it from a box: the raw
confidence, the class id, and the integer pixel corners. -/
structure RawDetection where
  conf : ℚ
  cls_id : ℤ
  x1 : ℤ
  y1 : ℤ
  x2 : ℤ
  y2 : ℤ
deriving DecidableEq

/-- One on-screen annotated hazard: the label and meters drawn by
cv2.rectangle / cv2.putText together with the box and rounded confidence. -/
structure AnnotatedHazard where
  label : String
  distance : ℚ
  x1 : ℤ
  y1 : ℤ
  x2 : ℤ
  y2 : ℤ
  conf : ℚ
deriving DecidableEq

/-- The per-frame detection loop of run (src/Vantage.py lines 97-133) on one
frame: each detection is filtered by the confidence threshold and the hazard
map, its width x2 - x1 is fed to estimate_distance, the hazard is drawn
unconditionally, and when the distance is below 2.0 the arbitrator
trigger_bone_conduction is called with a shared frame timestamp.  The result
is the drawn hazards, the emitted audio messages, and the final state; none
models the ZeroDivisionError aborting the frame on a zero frame width. -/
def processFrame (frame_width : ℚ) (now : ℚ) :
    List RawDetection → VantageState →
    Option (List AnnotatedHazard × List String × VantageState)
  | [], s => some ([], [], s)
  | d :: rest, s =>
    match classify d.cls_id (ceilConf d.conf) CONFIDENCE_THRESHOLD with
    | none => processFrame frame_width now rest s
    | some label =>
      match estimate_distance ((d.x2 - d.x1 : ℤ) : ℚ) frame_width with
      | none => none
      | some distance =>
        if code_alert_eligible distance then
          match processFrame frame_width now rest
              (trigger_bone_conduction label now s).2 with
          | none => none
          | some (anns, alerts, sF) =>
            some (⟨label, distance, d.x1, d.y1, d.x2, d.y2, ceilConf d.conf⟩ :: anns,
              (trigger_bone_conduction label now s).1.toList ++ alerts, sF)
        else
          match processFrame frame_width now rest s with
          | none => none
          | some (anns, alerts, sF) =>
            some (⟨label, distance, d.x1, d.y1, d.x2, d.y2, ceilConf d.conf⟩ :: anns,
              alerts, sF)

/-- The annotated hazard a single detection contributes (none when the
confidence filter or the hazard map rejects it, or the frame width is zero). -/
def annotatedOf (frame_width : ℚ) (d : RawDetection) : Option AnnotatedHazard :=
  match classify d.cls_id (ceilConf d.conf) CONFIDENCE_THRESHOLD with
  | none => none
  | some label =>
    (estimate_distance ((d.x2 - d.x1 : ℤ) : ℚ) frame_width).map
      (fun distance => ⟨label, distance, d.x1, d.y1, d.x2, d.y2, ceilConf d.conf⟩)

/-- Whether a detection reaches the arbitrator: it survives the hazard
filter and its estimated distance is below 2.0. -/
def eligible (frame_width : ℚ) (d : RawDetection) : Bool :=
  match classify d.cls_id (ceilConf d.conf) CONFIDENCE_THRESHOLD with
  | none => false
  | some _ =>
    match estimate_distance ((d.x2 - d.x1 : ℤ) : ℚ) frame_width with
    | none => false
    | some distance => code_alert_eligible distance

/-- The hazard label of a detection, read off HAZARD_MAP. -/
def labelOf (d : RawDetection) : String := (HAZARD_MAP d.cls_id).getD ""

/-- The audio messages a frame emits: the first arbitrator-reaching
detection fires exactly when the cooldown has elapsed, and nothing else
fires within the frame. -/
def frameAlert (frame_width now : ℚ) (dets : List RawDetection)
    (s : VantageState) : List String :=
  match dets.find? (eligible frame_width) with
  | some d => if now - s.last_audio_time > AUDIO_COOLDOWN then [labelOf d] else []
  | none => []

/-- The arbitrator state after a frame: updated to the frame timestamp
exactly when the frame fired an alert. -/
def frameEndState (frame_width now : ℚ) (dets : List RawDetection)
    (s : VantageState) : VantageState :=
  if (frameAlert frame_width now dets s).isEmpty then s else ⟨now⟩

/-- A sequence of arbitrator calls, each a message with its timestamp,
threaded through the state; returns the calls that fired and the final
state. -/
def alertRun : List (String × ℚ) → VantageState →
    List (String × ℚ) × VantageState
  | [], s => ([], s)
  | (m, t) :: rest, s =>
    let (ev, s') := trigger_bone_conduction m t s
    let (fired, sF) := alertRun rest s'
    (if ev.isSome then (m, t) :: fired else fired, sF)

/-! ## Basic lemmas -/

lemma estimate_distance_isSome (w f : ℚ) (hf : f ≠ 0) :
    ∃ d, estimate_distance w f = some d := by
  unfold estimate_distance
  rw [if_neg hf]
  simp only
  split_ifs <;> exact ⟨_, rfl⟩

lemma estimate_distance_mem (w f d : ℚ) (h : estimate_distance w f = some d) :
    d = 1 / 2 ∨ d = 3 / 2 ∨ d = 3 := by
  by_cases hf : f = 0
  · simp [estimate_distance, hf] at h
  · unfold estimate_distance at h
    rw [if_neg hf] at h
    simp only at h
    split_ifs at h <;> simp_all

lemma estimate_band_eq (w f : ℚ) (hf : f ≠ 0) :
    estimate_band w f = some
      (if w / f > 8 / 10 then DistanceBand.VeryClose
       else if w / f > 4 / 10 then DistanceBand.Close
       else DistanceBand.Safe) := by
  unfold estimate_band estimate_distance
  rw [if_neg hf]
  simp only
  split_ifs <;> norm_num [DistanceBand.ofMeters]

lemma classify_hazard_map (cls_id : ℤ) (conf threshold : ℚ) (label : String)
    (h : classify cls_id conf threshold = some label) :
    HAZARD_MAP cls_id = some label := by
  unfold classify at h
  split_ifs at h
  exact h

/-! ## Claim theorems -/

/-- C1: trigger_bone_conduction emits the audio message and sets
last_audio_time to now exactly when now - last_audio_time strictly exceeds
AUDIO_COOLDOWN; a delta equal to the cooldown, or any smaller or negative
delta, emits nothing; and whenever nothing is emitted the returned state is
exactly the input state, untouched. -/
theorem trigger_bone_conduction_spec (message : String) (now : ℚ) (s : VantageState) :
    (trigger_bone_conduction message now s = (some message, ⟨now⟩) ↔
      now - s.last_audio_time > AUDIO_COOLDOWN) ∧
    (now - s.last_audio_time ≤ AUDIO_COOLDOWN →
      (trigger_bone_conduction message now s).1 = none) ∧
    ((trigger_bone_conduction message now s).1 = none →
      trigger_bone_conduction message now s = (none, s)) := by
  unfold trigger_bone_conduction
  split_ifs with h
  · refine ⟨by simp [h], fun hle => absurd h (not_lt.mpr hle), by simp⟩
  · refine ⟨?_, fun _ => rfl, fun _ => rfl⟩
    simp only [Prod.mk.injEq]
    exact ⟨fun ⟨h1, _⟩ => by simp at h1, fun hgt => absurd hgt h⟩

/-- C4: the hazard filter accepts exactly the detections whose confidence
strictly exceeds the threshold and whose class id is one of the eight keys
of HAZARD_MAP; confidence equal to the threshold, or an unmapped class id,
is rejected regardless of the other input. -/
theorem classify_spec (cls_id : ℤ) (conf : ℚ) :
    (∀ cat, classify cls_id conf CONFIDENCE_THRESHOLD = some cat ↔
      conf > CONFIDENCE_THRESHOLD ∧ HAZARD_MAP cls_id = some cat) ∧
    (classify cls_id conf CONFIDENCE_THRESHOLD = none ↔
      conf ≤ CONFIDENCE_THRESHOLD ∨ HAZARD_MAP cls_id = none) ∧
    ((HAZARD_MAP cls_id).isSome ↔ cls_id ∈ HAZARD_KEYS) := by
  refine ⟨?_, ?_, ?_⟩
  · intro cat
    unfold classify
    split_ifs with h
    · exact ⟨fun hm => ⟨h, hm⟩, fun ⟨_, hm⟩ => hm⟩
    · exact ⟨fun hm => by simp at hm, fun ⟨hc, _⟩ => absurd hc h⟩
  · unfold classify
    split_ifs with h
    · constructor
      · intro hn; exact Or.inr hn
      · rintro (hle | hn)
        · exact absurd h (not_lt.mpr hle)
        · exact hn
    · exact ⟨fun _ => Or.inl (not_lt.mp h), fun _ => rfl⟩
  · unfold HAZARD_MAP HAZARD_KEYS
    split_ifs with h0 h1 h2 h3 h5 h7 h13 h56 <;> simp_all

/-- C6: the source estimate_distance has no frame-width guard.  At frame
width 0 it performs the division and raises ZeroDivisionError (modelled as
none) rather than failing with a recoverable InvalidInput; at the negative
frame width -20 it silently returns the Safe meters value 3.0 instead of
failing at all. -/
theorem estimate_distance_no_guard :
    estimate_distance 10 0 = none ∧ estimate_distance 10 (-20) = some 3 := by
  constructor
  · unfold estimate_distance
    rw [if_pos rfl]
  · unfold estimate_distance
    norm_num

/-- C10: ceiling-rounding the confidence to two decimals before the strict
comparison with CONFIDENCE_THRESHOLD = 0.55 never changes the outcome: the
rounded comparison holds iff the raw comparison does, so the hazard filter
classifies the rounded confidence exactly as it would the raw one. -/
theorem ceil_rounding_preserves_filter (c : ℚ) :
    (ceilConf c > CONFIDENCE_THRESHOLD ↔ c > CONFIDENCE_THRESHOLD) ∧
    (∀ cls_id, classify cls_id (ceilConf c) CONFIDENCE_THRESHOLD =
      classify cls_id c CONFIDENCE_THRESHOLD) := by
  have key : ceilConf c > CONFIDENCE_THRESHOLD ↔ c > CONFIDENCE_THRESHOLD := by
    unfold ceilConf CONFIDENCE_THRESHOLD
    constructor
    · intro h
      have h55 : (55 : ℚ) < ((Int.ceil (c * 100) : ℤ) : ℚ) := by linarith
      have h55i : (55 : ℤ) < Int.ceil (c * 100) := by exact_mod_cast h55
      have hc : (55 : ℚ) < c * 100 := by exact_mod_cast Int.lt_ceil.mp h55i
      linarith
    · intro h
      have hc : (55 : ℚ) < c * 100 := by linarith
      have h55i : (55 : ℤ) < Int.ceil (c * 100) := Int.lt_ceil.mpr (by exact_mod_cast hc)
      have h55 : (55 : ℚ) < ((Int.ceil (c * 100) : ℤ) : ℚ) := by exact_mod_cast h55i
      linarith
  refine ⟨key, fun cls_id => ?_⟩
  unfold classify
  by_cases h : c > CONFIDENCE_THRESHOLD
  · rw [if_pos h, if_pos (key.mpr h)]
  · rw [if_neg h, if_neg (fun hc => h (key.mp hc))]

/-- C5: for a nonnegative box width and a positive frame width, the
estimator maps perceived widths strictly above 0.8 to VeryClose, widths in
(0.4, 0.8] to Close, and widths at or below 0.4 to Safe; in particular a
ratio of exactly 0.8 gives Close, exactly 0.4 gives Safe, a box at least as
wide as the frame gives VeryClose, and a zero-width box gives Safe. -/
theorem estimate_distance_bands (w f : ℚ) (hw : 0 ≤ w) (hf : 0 < f) :
    (w / f > 8 / 10 → estimate_band w f = some .VeryClose) ∧
    (4 / 10 < w / f ∧ w / f ≤ 8 / 10 → estimate_band w f = some .Close) ∧
    (w / f ≤ 4 / 10 → estimate_band w f = some .Safe) ∧
    (w / f = 8 / 10 → estimate_band w f = some .Close) ∧
    (w / f = 4 / 10 → estimate_band w f = some .Safe) ∧
    (f ≤ w → estimate_band w f = some .VeryClose) ∧
    (w = 0 → estimate_band w f = some .Safe) := by
  have hf0 : f ≠ 0 := ne_of_gt hf
  have hvc : w / f > 8 / 10 → estimate_band w f = some .VeryClose := by
    intro h
    unfold estimate_band estimate_distance
    rw [if_neg hf0]
    simp only
    rw [if_pos h]
    norm_num [DistanceBand.ofMeters]
  have hcl : 4 / 10 < w / f ∧ w / f ≤ 8 / 10 → estimate_band w f = some .Close := by
    rintro ⟨hlo, hhi⟩
    unfold estimate_band estimate_distance
    rw [if_neg hf0]
    simp only
    rw [if_neg (not_lt.mpr hhi), if_pos hlo]
    norm_num [DistanceBand.ofMeters]
  have hsf : w / f ≤ 4 / 10 → estimate_band w f = some .Safe := by
    intro h
    unfold estimate_band estimate_distance
    rw [if_neg hf0]
    simp only
    rw [if_neg (by linarith : ¬(8 / 10 < w / f)), if_neg (not_lt.mpr h)]
    norm_num [DistanceBand.ofMeters]
  refine ⟨hvc, hcl, hsf, ?_, ?_, ?_, ?_⟩
  · intro h; exact hcl ⟨by rw [h]; norm_num, le_of_eq h⟩
  · intro h; exact hsf (le_of_eq h)
  · intro h
    have hone : (1 : ℚ) ≤ w / f := (one_le_div hf).mpr h
    exact hvc (by linarith)
  · intro h
    subst h
    exact hsf (by rw [zero_div]; norm_num)

/-- C8: the alert-eligibility test the run loop performs on the
representative meters value (distance < 2.0) is extensionally the same
decision as the specification's band test (VeryClose or Close): on every
distance value the estimator can produce for a nonzero frame width, the two
agree. -/
theorem eligibility_band_refinement (w f : ℚ) (hf : f ≠ 0) :
    ∃ dist band, estimate_distance w f = some dist ∧
      estimate_band w f = some band ∧
      code_alert_eligible dist = spec_alert_eligible band := by
  obtain ⟨dist, hdist⟩ := estimate_distance_isSome w f hf
  refine ⟨dist, DistanceBand.ofMeters dist, hdist, ?_, ?_⟩
  · unfold estimate_band
    rw [hdist]
    rfl
  · rcases estimate_distance_mem w f dist hdist with h | h | h <;>
      subst h <;> norm_num [code_alert_eligible, DistanceBand.ofMeters, spec_alert_eligible]

/-- C9: widening the box never moves the estimate to a farther band: for a
positive frame width and box widths w1 ≤ w2, the band estimated for w2 has a
closeness rank at most that of w1 under the order
VeryClose < Close < Safe. -/
theorem estimate_band_monotone (f w1 w2 : ℚ) (hf : 0 < f) (hw : w1 ≤ w2)
    (b1 b2 : DistanceBand)
    (h1 : estimate_band w1 f = some b1) (h2 : estimate_band w2 f = some b2) :
    b2.closenessRank ≤ b1.closenessRank := by
  have hf0 : f ≠ 0 := ne_of_gt hf
  have hr : w1 / f ≤ w2 / f := by gcongr
  rw [estimate_band_eq w1 f hf0, Option.some.injEq] at h1
  rw [estimate_band_eq w2 f hf0, Option.some.injEq] at h2
  subst h1
  subst h2
  split_ifs with ha1 ha2 ha3 ha4 ha5 ha6 <;>
    first
      | (exfalso; linarith)
      | norm_num [DistanceBand.closenessRank]

lemma alertRun_fired_spec (calls : List (String × ℚ)) :
    ∀ s : VantageState,
      (∀ p ∈ (alertRun calls s).1, p.2 - s.last_audio_time > AUDIO_COOLDOWN) ∧
      List.Pairwise (fun a b : String × ℚ => b.2 - a.2 > AUDIO_COOLDOWN)
        (alertRun calls s).1 := by
  induction calls with
  | nil => intro s; simp [alertRun]
  | cons p rest ih =>
    intro s
    obtain ⟨m, t⟩ := p
    by_cases h : t - s.last_audio_time > AUDIO_COOLDOWN
    · have hrun : alertRun ((m, t) :: rest) s =
          ((m, t) :: (alertRun rest ⟨t⟩).1, (alertRun rest ⟨t⟩).2) := by
        simp [alertRun, trigger_bone_conduction, h]
      rw [hrun]
      have hA : (0 : ℚ) < AUDIO_COOLDOWN := by norm_num [AUDIO_COOLDOWN]
      constructor
      · intro q hq
        rcases List.mem_cons.mp hq with hq' | hq'
        · rw [hq']
          exact h
        · have h1 := (ih ⟨t⟩).1 q hq'
          simp only at h1
          linarith
      · rw [List.pairwise_cons]
        exact ⟨fun q hq => (ih ⟨t⟩).1 q hq, (ih ⟨t⟩).2⟩
    · have hrun : alertRun ((m, t) :: rest) s = alertRun rest s := by
        simp [alertRun, trigger_bone_conduction, h]
      rw [hrun]
      exact ih s

/-- C3: along any sequence of arbitrator calls with non-decreasing
timestamps, starting from the initial state, the calls on which
trigger_bone_conduction fires are pairwise strictly more than
AUDIO_COOLDOWN apart in time, whatever hazard message each call carries:
the timer is a single system-wide one. -/
theorem alertRun_cooldown_separation (calls : List (String × ℚ))
    (hsorted : List.Sorted (fun a b : String × ℚ => a.2 ≤ b.2) calls) :
    List.Pairwise (fun a b : String × ℚ => b.2 - a.2 > AUDIO_COOLDOWN)
      (alertRun calls initState).1 :=
  (alertRun_fired_spec calls initState).2

lemma frameAlert_cons_neg (fw now : ℚ) (d : RawDetection) (rest : List RawDetection)
    (s : VantageState) (hel : ¬ eligible fw d = true) :
    frameAlert fw now (d :: rest) s = frameAlert fw now rest s := by
  unfold frameAlert
  rw [List.find?_cons_of_neg _ hel]

lemma frameAlert_cons_pos (fw now : ℚ) (d : RawDetection) (rest : List RawDetection)
    (s : VantageState) (hel : eligible fw d = true) :
    frameAlert fw now (d :: rest) s =
      if now - s.last_audio_time > AUDIO_COOLDOWN then [labelOf d] else [] := by
  unfold frameAlert
  rw [List.find?_cons_of_pos _ hel]

lemma frameAlert_blocked (fw now : ℚ) (dets : List RawDetection) (s : VantageState)
    (h : ¬ now - s.last_audio_time > AUDIO_COOLDOWN) :
    frameAlert fw now dets s = [] := by
  rcases hfind : dets.find? (eligible fw) with _ | d
  · simp [frameAlert, hfind]
  · simp [frameAlert, hfind, h]

lemma processFrame_cons_rejected (fw now : ℚ) (d : RawDetection)
    (rest : List RawDetection) (s : VantageState)
    (hcl : classify d.cls_id (ceilConf d.conf) CONFIDENCE_THRESHOLD = none) :
    processFrame fw now (d :: rest) s = processFrame fw now rest s := by
  conv_lhs => rw [processFrame]
  rw [hcl]

lemma processFrame_cons_eligible (fw now : ℚ) (d : RawDetection)
    (rest : List RawDetection) (s : VantageState) (label : String) (dist : ℚ)
    (anns : List AnnotatedHazard) (alerts : List String) (sF : VantageState)
    (hcl : classify d.cls_id (ceilConf d.conf) CONFIDENCE_THRESHOLD = some label)
    (hdist : estimate_distance ((d.x2 - d.x1 : ℤ) : ℚ) fw = some dist)
    (hcae : code_alert_eligible dist = true)
    (hrec : processFrame fw now rest (trigger_bone_conduction label now s).2 =
      some (anns, alerts, sF)) :
    processFrame fw now (d :: rest) s =
      some (⟨label, dist, d.x1, d.y1, d.x2, d.y2, ceilConf d.conf⟩ :: anns,
        (trigger_bone_conduction label now s).1.toList ++ alerts, sF) := by
  simp only [processFrame, hcl, hdist, hcae, eq_self_iff_true, if_true, hrec]

lemma processFrame_cons_far (fw now : ℚ) (d : RawDetection)
    (rest : List RawDetection) (s : VantageState) (label : String) (dist : ℚ)
    (anns : List AnnotatedHazard) (alerts : List String) (sF : VantageState)
    (hcl : classify d.cls_id (ceilConf d.conf) CONFIDENCE_THRESHOLD = some label)
    (hdist : estimate_distance ((d.x2 - d.x1 : ℤ) : ℚ) fw = some dist)
    (hcae : code_alert_eligible dist = false)
    (hrec : processFrame fw now rest s = some (anns, alerts, sF)) :
    processFrame fw now (d :: rest) s =
      some (⟨label, dist, d.x1, d.y1, d.x2, d.y2, ceilConf d.conf⟩ :: anns,
        alerts, sF) := by
  simp only [processFrame, hcl, hdist, hcae, Bool.false_eq_true, if_false, hrec]

lemma processFrame_characterization (fw now : ℚ) (hf : fw ≠ 0) :
    ∀ (dets : List RawDetection) (s : VantageState),
      processFrame fw now dets s =
        some (dets.filterMap (annotatedOf fw), frameAlert fw now dets s,
          frameEndState fw now dets s) := by
  intro dets
  induction dets with
  | nil =>
    intro s
    simp [processFrame, frameAlert, frameEndState]
  | cons d rest ih =>
    intro s
    rcases hcl : classify d.cls_id (ceilConf d.conf) CONFIDENCE_THRESHOLD with _ | label
    · have hel : eligible fw d = false := by
        unfold eligible
        rw [hcl]
      have hann : annotatedOf fw d = none := by
        unfold annotatedOf
        rw [hcl]
      have hFM : (d :: rest).filterMap (annotatedOf fw) =
          rest.filterMap (annotatedOf fw) := by
        rw [List.filterMap_cons, hann]
      have hFA : frameAlert fw now (d :: rest) s = frameAlert fw now rest s :=
        frameAlert_cons_neg fw now d rest s (by simp [hel])
      have hFE : frameEndState fw now (d :: rest) s = frameEndState fw now rest s := by
        unfold frameEndState
        rw [hFA]
      rw [processFrame_cons_rejected fw now d rest s hcl, ih s, hFM, hFA, hFE]
    · obtain ⟨dist, hdist⟩ := estimate_distance_isSome ((d.x2 - d.x1 : ℤ) : ℚ) fw hf
      have hann : annotatedOf fw d =
          some ⟨label, dist, d.x1, d.y1, d.x2, d.y2, ceilConf d.conf⟩ := by
        unfold annotatedOf
        rw [hcl, hdist]
        rfl
      have hFM : (d :: rest).filterMap (annotatedOf fw) =
          (⟨label, dist, d.x1, d.y1, d.x2, d.y2, ceilConf d.conf⟩ : AnnotatedHazard) ::
            rest.filterMap (annotatedOf fw) := by
        rw [List.filterMap_cons, hann]
      have hlab : labelOf d = label := by
        unfold labelOf
        rw [classify_hazard_map _ _ _ _ hcl]
        rfl
      by_cases hcae : code_alert_eligible dist = true
      · have hel : eligible fw d = true := by
          unfold eligible
          rw [hcl, hdist]
          exact hcae
        by_cases hcool : now - s.last_audio_time > AUDIO_COOLDOWN
        · have htrig : trigger_bone_conduction label now s = (some label, ⟨now⟩) := by
            simp [trigger_bone_conduction, hcool]
          have hFA' : frameAlert fw now rest ⟨now⟩ = [] :=
            frameAlert_blocked fw now rest ⟨now⟩ (by norm_num [AUDIO_COOLDOWN])
          have hFE' : frameEndState fw now rest ⟨now⟩ = ⟨now⟩ := by
            simp [frameEndState, hFA']
          have hFA : frameAlert fw now (d :: rest) s = [labelOf d] := by
            rw [frameAlert_cons_pos fw now d rest s hel, if_pos hcool]
          have hFE : frameEndState fw now (d :: rest) s = ⟨now⟩ := by
            simp [frameEndState, hFA]
          have hrec : processFrame fw now rest (trigger_bone_conduction label now s).2 =
              some (rest.filterMap (annotatedOf fw), [], ⟨now⟩) := by
            rw [htrig]
            rw [ih ⟨now⟩, hFA', hFE']
          rw [processFrame_cons_eligible fw now d rest s label dist _ _ _
            hcl hdist hcae hrec, htrig, hFM, hFA, hFE, hlab]
          simp
        · have htrig : trigger_bone_conduction label now s = (none, s) := by
            simp [trigger_bone_conduction, hcool]
          have hFA : frameAlert fw now (d :: rest) s = [] :=
            frameAlert_blocked fw now (d :: rest) s hcool
          have hFA' : frameAlert fw now rest s = [] :=
            frameAlert_blocked fw now rest s hcool
          have hFE : frameEndState fw now (d :: rest) s = s := by
            simp [frameEndState, hFA]
          have hFE' : frameEndState fw now rest s = s := by
            simp [frameEndState, hFA']
          have hrec : processFrame fw now rest (trigger_bone_conduction label now s).2 =
              some (rest.filterMap (annotatedOf fw), [], s) := by
            rw [htrig]
            rw [ih s, hFA', hFE']
          rw [processFrame_cons_eligible fw now d rest s label dist _ _ _
            hcl hdist hcae hrec, htrig, hFM, hFA, hFE]
          simp
      · have hcae' : code_alert_eligible dist = false := by
          simpa using hcae
        have hel : eligible fw d = false := by
          unfold eligible
          rw [hcl, hdist]
          exact hcae'
        have hFA : frameAlert fw now (d :: rest) s = frameAlert fw now rest s :=
          frameAlert_cons_neg fw now d rest s (by simp [hel])
        have hFE : frameEndState fw now (d :: rest) s = frameEndState fw now rest s := by
          unfold frameEndState
          rw [hFA]
        rw [processFrame_cons_far fw now d rest s label dist _ _ _
          hcl hdist hcae' (ih s), hFM, hFA, hFE]

/-- C2: on one frame with a shared timestamp (the cooldown constant 2.0
being positive), the per-frame loop emits at most one audio message, and any
emitted message is the label of the first arbitrator-reaching hazard in
detection input order: later eligible hazards in the same frame never add or
override an alert, yet every eligible hazard still appears in the frame's
annotated output, which is pinned to the per-detection annotations. -/
theorem processFrame_at_most_one_alert (fw now : ℚ) (dets : List RawDetection)
    (s : VantageState) (hf : fw ≠ 0) :
    ∃ sF,
      processFrame fw now dets s =
        some (dets.filterMap (annotatedOf fw), frameAlert fw now dets s, sF) ∧
      (frameAlert fw now dets s).length ≤ 1 ∧
      (∀ m ∈ frameAlert fw now dets s,
        ∃ d, dets.find? (eligible fw) = some d ∧ m = labelOf d) ∧
      (∀ d ∈ dets, eligible fw d = true → (annotatedOf fw d).isSome = true) := by
  refine ⟨_, processFrame_characterization fw now hf dets s, ?_, ?_, ?_⟩
  · cases hfind : dets.find? (eligible fw) with
    | none => simp [frameAlert, hfind]
    | some d =>
      unfold frameAlert
      rw [hfind]
      split_ifs <;> simp
  · intro m hm
    unfold frameAlert at hm
    cases hfind : dets.find? (eligible fw) with
    | none =>
      rw [hfind] at hm
      simp at hm
    | some d =>
      rw [hfind] at hm
      split_ifs at hm with h
      · simp only [List.mem_singleton] at hm
        exact ⟨d, rfl, hm⟩
      · simp at hm
  · intro d _ hd
    rcases hcl : classify d.cls_id (ceilConf d.conf) CONFIDENCE_THRESHOLD with _ | label
    · exfalso
      unfold eligible at hd
      rw [hcl] at hd
      simp at hd
    · obtain ⟨dist, hdist⟩ := estimate_distance_isSome ((d.x2 - d.x1 : ℤ) : ℚ) fw hf
      unfold annotatedOf
      rw [hcl, hdist]
      rfl

/-- C7: every detection the hazard filter accepts contributes an annotated
hazard to the frame output whatever its distance band, and a frame whose
detections all estimate to the Safe band emits no audio message and leaves
the arbitrator state untouched. -/
theorem processFrame_annotates_unconditionally (fw now : ℚ)
    (dets : List RawDetection) (s : VantageState) (hf : fw ≠ 0) :
    ∃ alerts sF,
      processFrame fw now dets s =
        some (dets.filterMap (annotatedOf fw), alerts, sF) ∧
      (∀ d ∈ dets, (annotatedOf fw d).isSome =
        (classify d.cls_id (ceilConf d.conf) CONFIDENCE_THRESHOLD).isSome) ∧
      ((∀ d ∈ dets, estimate_band ((d.x2 - d.x1 : ℤ) : ℚ) fw = some .Safe) →
        alerts = [] ∧ sF = s) := by
  refine ⟨frameAlert fw now dets s, frameEndState fw now dets s,
    processFrame_characterization fw now hf dets s, ?_, ?_⟩
  · intro d _
    rcases hcl : classify d.cls_id (ceilConf d.conf) CONFIDENCE_THRESHOLD with _ | label
    · unfold annotatedOf
      rw [hcl]
      rfl
    · obtain ⟨dist, hdist⟩ := estimate_distance_isSome ((d.x2 - d.x1 : ℤ) : ℚ) fw hf
      unfold annotatedOf
      rw [hcl, hdist]
      rfl
  · intro hsafe
    have hall : ∀ d ∈ dets, ¬ (eligible fw d = true) := by
      intro d hd
      rcases hcl : classify d.cls_id (ceilConf d.conf) CONFIDENCE_THRESHOLD with _ | label
      · unfold eligible
        rw [hcl]
        simp
      · obtain ⟨dist, hdist⟩ := estimate_distance_isSome ((d.x2 - d.x1 : ℤ) : ℚ) fw hf
        have hb := hsafe d hd
        unfold estimate_band at hb
        rw [hdist] at hb
        have hof : DistanceBand.ofMeters dist = .Safe := by simpa using hb
        have h3 : dist = 3 := by
          rcases estimate_distance_mem _ _ _ hdist with h | h | h
          · exfalso
            rw [h] at hof
            norm_num [DistanceBand.ofMeters] at hof
            exact DistanceBand.noConfusion hof
          · exfalso
            rw [h] at hof
            norm_num [DistanceBand.ofMeters] at hof
            exact DistanceBand.noConfusion hof
          · exact h
        unfold eligible
        rw [hcl, hdist]
        subst h3
        show ¬ (code_alert_eligible 3 = true)
        norm_num [code_alert_eligible]
    have hfind : dets.find? (eligible fw) = none := List.find?_eq_none.mpr hall
    have hFA : frameAlert fw now dets s = [] := by
      unfold frameAlert
      rw [hfind]
    exact ⟨hFA, by simp [frameEndState, hFA]⟩

/-! ## Witnesses: the claim theorems applied at concrete inputs -/

set_option maxRecDepth 8000

/-- Witness for C1: at time 5 from the initial state the cooldown has
elapsed, so the alert fires and the state is updated to 5. -/
theorem trigger_bone_conduction_spec_witness :
    trigger_bone_conduction "Car (Dynamic)" 5 initState = (some "Car (Dynamic)", ⟨5⟩) :=
  (trigger_bone_conduction_spec "Car (Dynamic)" 5 initState).1.mpr
    (by norm_num [initState, AUDIO_COOLDOWN])

set_option maxHeartbeats 1000000 in
/-- Witness for C2: a frame with a VeryClose Car followed by a VeryClose
Pedestrian fires exactly the Car alert, while both hazards are annotated. -/
theorem processFrame_at_most_one_alert_witness :
    (1000 : ℚ) ≠ 0 ∧
    frameAlert 1000 10 [⟨9/10, 2, 0, 0, 1000, 50⟩, ⟨9/10, 0, 0, 0, 1000, 50⟩]
      initState = ["Car (Dynamic)"] ∧
    List.filterMap (annotatedOf 1000)
      [⟨9/10, 2, 0, 0, 1000, 50⟩, ⟨9/10, 0, 0, 0, 1000, 50⟩] =
      [⟨"Car (Dynamic)", 1/2, 0, 0, 1000, 50, 9/10⟩,
       ⟨"Pedestrian (Dynamic)", 1/2, 0, 0, 1000, 50, 9/10⟩] ∧
    (∃ sF,
      processFrame 1000 10 [⟨9/10, 2, 0, 0, 1000, 50⟩, ⟨9/10, 0, 0, 0, 1000, 50⟩]
          initState =
        some (List.filterMap (annotatedOf 1000)
            [⟨9/10, 2, 0, 0, 1000, 50⟩, ⟨9/10, 0, 0, 0, 1000, 50⟩],
          frameAlert 1000 10 [⟨9/10, 2, 0, 0, 1000, 50⟩, ⟨9/10, 0, 0, 0, 1000, 50⟩]
            initState, sF) ∧
      (frameAlert 1000 10 [⟨9/10, 2, 0, 0, 1000, 50⟩, ⟨9/10, 0, 0, 0, 1000, 50⟩]
        initState).length ≤ 1 ∧
      (∀ m ∈ frameAlert 1000 10 [⟨9/10, 2, 0, 0, 1000, 50⟩, ⟨9/10, 0, 0, 0, 1000, 50⟩]
          initState,
        ∃ d, List.find? (eligible 1000)
            [⟨9/10, 2, 0, 0, 1000, 50⟩, ⟨9/10, 0, 0, 0, 1000, 50⟩] = some d ∧
          m = labelOf d) ∧
      (∀ d ∈ [(⟨9/10, 2, 0, 0, 1000, 50⟩ : RawDetection), ⟨9/10, 0, 0, 0, 1000, 50⟩],
        eligible 1000 d = true → (annotatedOf 1000 d).isSome = true)) :=
  ⟨by norm_num,
   by norm_num [frameAlert, eligible, classify, ceilConf, estimate_distance,
     code_alert_eligible, HAZARD_MAP, labelOf, CONFIDENCE_THRESHOLD, AUDIO_COOLDOWN,
     initState, List.find?],
   by norm_num [annotatedOf, classify, ceilConf, estimate_distance, HAZARD_MAP,
     CONFIDENCE_THRESHOLD, List.filterMap],
   processFrame_at_most_one_alert 1000 10
     [⟨9/10, 2, 0, 0, 1000, 50⟩, ⟨9/10, 0, 0, 0, 1000, 50⟩] initState (by norm_num)⟩

/-- Witness for C3: of three calls at times 3, 4, 6 the first and third
fire, and the fired pair is more than the 2-second cooldown apart. -/
theorem alertRun_cooldown_separation_witness :
    List.Sorted (fun a b : String × ℚ => a.2 ≤ b.2)
      [("Car (Dynamic)", 3), ("Pedestrian (Dynamic)", 4), ("Car (Dynamic)", 6)] ∧
    (alertRun [("Car (Dynamic)", 3), ("Pedestrian (Dynamic)", 4), ("Car (Dynamic)", 6)]
      initState).1 = [("Car (Dynamic)", 3), ("Car (Dynamic)", 6)] ∧
    List.Pairwise (fun a b : String × ℚ => b.2 - a.2 > AUDIO_COOLDOWN)
      (alertRun [("Car (Dynamic)", 3), ("Pedestrian (Dynamic)", 4), ("Car (Dynamic)", 6)]
        initState).1 :=
  ⟨by norm_num [List.Sorted, List.pairwise_cons],
   by norm_num [alertRun, trigger_bone_conduction, AUDIO_COOLDOWN, initState],
   alertRun_cooldown_separation
     [("Car (Dynamic)", 3), ("Pedestrian (Dynamic)", 4), ("Car (Dynamic)", 6)]
     (by norm_num [List.Sorted, List.pairwise_cons])⟩

/-- Witness for C5: a box of width 900 in a frame of width 1000 (the ratio
0.9) estimates to VeryClose. -/
theorem estimate_distance_bands_witness :
    (0 : ℚ) ≤ 900 ∧ (0 : ℚ) < 1000 ∧
    estimate_band 900 1000 = some DistanceBand.VeryClose :=
  ⟨by norm_num, by norm_num,
   (estimate_distance_bands 900 1000 (by norm_num) (by norm_num)).1 (by norm_num)⟩

/-- Witness for C7: a lone Chair at ratio 0.1 (Safe) is annotated yet emits
no audio message and leaves the state untouched. -/
theorem processFrame_annotates_unconditionally_witness :
    (1000 : ℚ) ≠ 0 ∧
    List.filterMap (annotatedOf 1000) [⟨7/10, 56, 0, 0, 100, 50⟩] =
      [⟨"Obstacle (Chair)", 3, 0, 0, 100, 50, 7/10⟩] ∧
    (∃ alerts sF,
      processFrame 1000 5 [⟨7/10, 56, 0, 0, 100, 50⟩] initState =
        some (List.filterMap (annotatedOf 1000) [⟨7/10, 56, 0, 0, 100, 50⟩],
          alerts, sF) ∧
      (∀ d ∈ [(⟨7/10, 56, 0, 0, 100, 50⟩ : RawDetection)], (annotatedOf 1000 d).isSome =
        (classify d.cls_id (ceilConf d.conf) CONFIDENCE_THRESHOLD).isSome) ∧
      ((∀ d ∈ [(⟨7/10, 56, 0, 0, 100, 50⟩ : RawDetection)],
          estimate_band ((d.x2 - d.x1 : ℤ) : ℚ) 1000 = some .Safe) →
        alerts = [] ∧ sF = initState)) :=
  ⟨by norm_num,
   by norm_num [annotatedOf, classify, ceilConf, estimate_distance, HAZARD_MAP,
     CONFIDENCE_THRESHOLD, List.filterMap],
   processFrame_annotates_unconditionally 1000 5 [⟨7/10, 56, 0, 0, 100, 50⟩]
     initState (by norm_num)⟩

/-- Witness for C8: at ratio 0.9 the estimator yields the meters value 0.5
and the VeryClose band, and both eligibility tests agree (true). -/
theorem eligibility_band_refinement_witness :
    (10 : ℚ) ≠ 0 ∧
    (∃ dist band, estimate_distance 9 10 = some dist ∧
      estimate_band 9 10 = some band ∧
      code_alert_eligible dist = spec_alert_eligible band) :=
  ⟨by norm_num, eligibility_band_refinement 9 10 (by norm_num)⟩

/-- Witness for C9: widening the box from ratio 0.5 (Close) to ratio 0.9
(VeryClose) moves the band strictly closer, never farther. -/
theorem estimate_band_monotone_witness :
    (0 : ℚ) < 10 ∧ (5 : ℚ) ≤ 9 ∧
    estimate_band 5 10 = some DistanceBand.Close ∧
    estimate_band 9 10 = some DistanceBand.VeryClose ∧
    DistanceBand.closenessRank DistanceBand.VeryClose ≤
      DistanceBand.closenessRank DistanceBand.Close := by
  have hb1 : estimate_band 5 10 = some DistanceBand.Close := by
    norm_num [estimate_band, estimate_distance, DistanceBand.ofMeters]
  have hb2 : estimate_band 9 10 = some DistanceBand.VeryClose := by
    norm_num [estimate_band, estimate_distance, DistanceBand.ofMeters]
  exact ⟨by norm_num, by norm_num, hb1, hb2,
    estimate_band_monotone 10 5 9 (by norm_num) (by norm_num) _ _ hb1 hb2⟩

end Vantage







